import Mathlib

/-!
Shallow embedding of `src/b2sdk_redis/redis_account_info.py`: the
`RedisAccountInfo` adapter that stores a B2 session record and a bucket
name-to-id cache in Redis.

The Redis backend is modelled as a pair of total maps: plain string keys
(`strs`) and hash keys (`hashes`).  The adapter only ever uses the
`bucket-map` physical key as a hash and the other nine physical keys as
plain strings, so keeping the two kinds in separate components never
changes any behaviour the adapter can observe.  Python exceptions are
modelled with `Except PyErr`; `None` results of `redis.get` are `Option`.
-/

/-- Python exception kinds raised by the adapter code:
`MissingAccountData` (from `b2sdk.v1.exception`), `ValueError`
(raised by `int()`, by the alias check, and as `json.JSONDecodeError`,
which subclasses `ValueError`), and `TypeError` (raised by `six.ensure_str`
or `int()` on `None`). -/
inductive PyErr where
  | missingAccountData (msg : String)
  | valueError (msg : String)
  | typeError (msg : String)
  deriving DecidableEq, Repr

/-- State of the Redis database: plain string keys and hash keys.
A hash field lookup on an absent hash key returns `none`, exactly as
`HGET` does; an empty hash and an absent hash key are indistinguishable,
exactly as in Redis. -/
structure RedisDB where
  strs : String → Option String
  hashes : String → String → Option String

/-- The empty database: no key holds anything. -/
def RedisDB.empty : RedisDB :=
  { strs := fun _ => none, hashes := fun _ _ => none }

/-- Models `redis.get(k)`. -/
def RedisDB.get (db : RedisDB) (k : String) : Option String :=
  db.strs k

/-- Models `redis.set(k, v)` on a plain string key. -/
def RedisDB.setStr (db : RedisDB) (k v : String) : RedisDB :=
  { db with strs := fun k2 => if k2 = k then some v else db.strs k2 }

/-- Models `redis.mset(d)`: every key of the dict is set to its value.
The adapter always passes dicts with pairwise distinct keys, so the
left-to-right fold agrees with the simultaneous multi-set. -/
def RedisDB.msetList (db : RedisDB) (kvs : List (String × String)) : RedisDB :=
  kvs.foldl (fun d kv => d.setStr kv.1 kv.2) db

/-- Models `redis.delete(*ks)`: one request removing every listed key,
whatever its type; deleting absent keys is a silent no-op. -/
def RedisDB.deleteKeys (db : RedisDB) (ks : List String) : RedisDB :=
  { strs := fun k => if k ∈ ks then none else db.strs k,
    hashes := fun k f => if k ∈ ks then none else db.hashes k f }

/-- Models `redis.hget(k, f)`. -/
def RedisDB.hget (db : RedisDB) (k f : String) : Option String :=
  db.hashes k f

/-- Models `redis.hset(k, f, v)`: sets one hash field and returns the
number of fields newly created (1 if the field was absent, 0 if it was
overwritten). -/
def RedisDB.hset (db : RedisDB) (k f v : String) : RedisDB × Nat :=
  ({ db with hashes := fun k2 f2 =>
      if k2 = k ∧ f2 = f then some v else db.hashes k2 f2 },
   if (db.hashes k f).isSome then 0 else 1)

/-- Models `redis.hdel(k, f)`: removes one hash field and returns the
number of fields removed (1 if present, 0 if absent). -/
def RedisDB.hdel (db : RedisDB) (k f : String) : RedisDB × Nat :=
  ({ db with hashes := fun k2 f2 =>
      if k2 = k ∧ f2 = f then none else db.hashes k2 f2 },
   if (db.hashes k f).isSome then 1 else 0)

/-- Models `redis.hset(k, mapping=m)` for a Python dict `m`, given as an
association list with distinct keys: every field of the mapping is set,
other fields of the hash are kept. -/
def RedisDB.hsetMapping (db : RedisDB) (k : String) (m : List (String × String)) : RedisDB :=
  { db with hashes := fun k2 f =>
      if k2 = k then
        match m.lookup f with
        | some v => some v
        | none => db.hashes k2 f
      else db.hashes k2 f }

/-- Commands the adapter can queue on a `redis.pipeline()`; `execute`
runs the queued commands as one atomic unit. -/
inductive RedisCmd where
  | del (k : String)
  | hsetMapping (k : String) (m : List (String × String))
  deriving Repr

/-- Effect of a single pipelined command on the database. -/
def RedisCmd.apply : RedisCmd → RedisDB → RedisDB
  | .del k, db => db.deleteKeys [k]
  | .hsetMapping k m, db => db.hsetMapping k m

/-- Models `pipeline.execute()`: the queued commands are applied in
order, as one atomic unit. -/
def RedisDB.runPipeline (db : RedisDB) (cmds : List RedisCmd) : RedisDB :=
  cmds.foldl (fun d c => c.apply d) db

/-- Models `six.ensure_str` applied to a value that is already a text
string: in Python 3 it returns the string unchanged (it only decodes
byte strings, which the typed embedding cannot produce). -/
def six_ensure_str (s : String) : String := s

/-- Character for a single decimal digit value. -/
def digitChar (d : Nat) : Char := Char.ofNat (48 + d)

/-- Decimal digits of `n`, least significant first, with explicit fuel
so that the definition is structural and kernel-reducible. -/
def natDigitsRev : Nat → Nat → List Nat
  | 0, _ => []
  | fuel + 1, n => if n = 0 then [] else n % 10 :: natDigitsRev fuel (n / 10)

/-- Value of a least-significant-first digit list. -/
def valRev : List Nat → Nat
  | [] => 0
  | d :: ds => d + 10 * valRev ds

/-- Models Python `str(n)` for a non-negative integer. -/
def pyStrNat (n : Nat) : String :=
  if n = 0 then "0" else String.mk (((natDigitsRev n n).map digitChar).reverse)

/-- Models Python `str(i)` for an arbitrary integer, as used by redis-py
when an `int` value is written to Redis (values are encoded with `str`). -/
def pyStrInt (i : Int) : String :=
  if i < 0 then "-" ++ pyStrNat i.natAbs else pyStrNat i.natAbs

/-- Reads a run of decimal digit characters into an accumulator;
any non-digit character makes the whole parse fail. -/
def parseDigitsAcc : List Char → Nat → Option Nat
  | [], acc => some acc
  | c :: cs, acc =>
      if 48 ≤ c.toNat ∧ c.toNat ≤ 57 then
        parseDigitsAcc cs (acc * 10 + (c.toNat - 48))
      else none

/-- A non-empty all-digit character run, or failure. -/
def parseNonemptyDigits (cs : List Char) : Option Nat :=
  if cs = [] then none else parseDigitsAcc cs 0

/-- Models Python `int(s)` with base 10 on the characters of a string:
an optional sign followed by at least one decimal digit; anything else
raises `ValueError` (modelled as `none`). -/
def pyIntParseChars : List Char → Option Int
  | [] => none
  | c :: cs =>
      if c = '-' then (parseNonemptyDigits cs).map (fun n => -(Int.ofNat n))
      else if c = '+' then (parseNonemptyDigits cs).map Int.ofNat
      else (parseNonemptyDigits (c :: cs)).map Int.ofNat

/-- Models Python `int(s)` with base 10. -/
def pyIntParse (s : String) : Option Int :=
  pyIntParseChars s.data

/-- Inserts one key into a Python dict modelled as an association list
in insertion order: an existing binding is overwritten in place, a new
key is appended. -/
def pyDictInsert (m : List (String × String)) (k v : String) : List (String × String) :=
  if m.any (fun kv => kv.1 = k) then
    m.map (fun kv => if kv.1 = k then (k, v) else kv)
  else m ++ [(k, v)]

/-- Models the dict comprehension over an iterable of pairs: later pairs
with the same key overwrite earlier ones. -/
def pyDictOf (l : List (String × String)) : List (String × String) :=
  l.foldl (fun m kv => pyDictInsert m kv.1 kv.2) []

/-- JSON values, the model of the Python objects that `json.dumps` and
`json.loads` exchange (the `allowed` permission descriptor is such a
value: a dict of strings, lists and nulls). -/
inductive Json where
  | null
  | bool (b : Bool)
  | num (n : Int)
  | str (s : String)
  | arr (xs : List Json)
  | obj (kvs : List (String × Json))
  deriving Repr

/-- Escapes one character the way `json.dumps` does for the characters
the adapter's data can contain (quote, backslash and the common control
characters; other characters are emitted verbatim). -/
def jsonEscapeChar (c : Char) : String :=
  if c = '"' then "\\\""
  else if c = '\\' then "\\\\"
  else if c = '\n' then "\\n"
  else if c = '\t' then "\\t"
  else if c = '\r' then "\\r"
  else String.singleton c

/-- A JSON string literal with quotes and escapes. -/
def jsonQuote (s : String) : String :=
  "\"" ++ String.join (s.data.map jsonEscapeChar) ++ "\""

mutual

/-- Models `json.dumps` with its default separators (item separator
comma-space, key separator colon-space). -/
def Json.dumps : Json → String
  | .null => "null"
  | .bool true => "true"
  | .bool false => "false"
  | .num n => pyStrInt n
  | .str s => jsonQuote s
  | .arr xs => "[" ++ Json.dumpsArr xs ++ "]"
  | .obj kvs => "\x7b" ++ Json.dumpsObj kvs ++ "\x7d"

/-- Comma-space separated array elements. -/
def Json.dumpsArr : List Json → String
  | [] => ""
  | [x] => Json.dumps x
  | x :: y :: xs => Json.dumps x ++ ", " ++ Json.dumpsArr (y :: xs)

/-- Comma-space separated object members with colon-space key separator. -/
def Json.dumpsObj : List (String × Json) → String
  | [] => ""
  | [(k, v)] => jsonQuote k ++ ": " ++ Json.dumps v
  | (k, v) :: kv2 :: kvs => jsonQuote k ++ ": " ++ Json.dumps v ++ ", " ++ Json.dumpsObj (kv2 :: kvs)

end

/-- Skips JSON whitespace. -/
def jsonSkipWs (cs : List Char) : List Char :=
  cs.dropWhile (fun c => c == ' ' || c == '\n' || c == '\t' || c == '\r')

/-- Parses the body of a JSON string literal after the opening quote,
handling the escapes `jsonEscapeChar` can produce (plus the `\/`
escape), up to and including the closing quote. -/
def parseJsonStrBody : Nat → List Char → String → Option (String × List Char)
  | 0, _, _ => none
  | fuel + 1, cs, acc =>
      match cs with
      | [] => none
      | '"' :: rest => some (acc, rest)
      | '\\' :: e :: rest =>
          if e = '"' then parseJsonStrBody fuel rest (acc.push '"')
          else if e = '\\' then parseJsonStrBody fuel rest (acc.push '\\')
          else if e = 'n' then parseJsonStrBody fuel rest (acc.push '\n')
          else if e = 't' then parseJsonStrBody fuel rest (acc.push '\t')
          else if e = 'r' then parseJsonStrBody fuel rest (acc.push '\r')
          else if e = '/' then parseJsonStrBody fuel rest (acc.push '/')
          else none
      | c :: rest => parseJsonStrBody fuel rest (acc.push c)

/-- Parses a JSON integer numeral (an optional minus sign and decimal
digits; the adapter's data never contains floats or exponents). -/
def parseJsonNum (cs : List Char) : Option (Int × List Char) :=
  match cs with
  | '-' :: rest =>
      let ds := rest.takeWhile (fun c => 48 ≤ c.toNat ∧ c.toNat ≤ 57)
      if ds = [] then none
      else (parseDigitsAcc ds 0).map
        (fun n => (-(n : Int), rest.dropWhile (fun c => 48 ≤ c.toNat ∧ c.toNat ≤ 57)))
  | _ =>
      let ds := cs.takeWhile (fun c => 48 ≤ c.toNat ∧ c.toNat ≤ 57)
      if ds = [] then none
      else (parseDigitsAcc ds 0).map
        (fun n => ((n : Int), cs.dropWhile (fun c => 48 ≤ c.toNat ∧ c.toNat ≤ 57)))

mutual

/-- Parses one JSON value with fuel (each step consumes input, so a fuel
of the input length suffices; running out of fuel is a parse failure). -/
def parseJsonVal : Nat → List Char → Option (Json × List Char)
  | 0, _ => none
  | fuel + 1, cs =>
      match jsonSkipWs cs with
      | 'n' :: 'u' :: 'l' :: 'l' :: rest => some (.null, rest)
      | 't' :: 'r' :: 'u' :: 'e' :: rest => some (.bool true, rest)
      | 'f' :: 'a' :: 'l' :: 's' :: 'e' :: rest => some (.bool false, rest)
      | '"' :: rest =>
          (parseJsonStrBody (rest.length + 1) rest "").map (fun p => (.str p.1, p.2))
      | '[' :: rest =>
          match jsonSkipWs rest with
          | ']' :: rest2 => some (.arr [], rest2)
          | _ => (parseJsonArrItems fuel (jsonSkipWs rest)).map (fun p => (.arr p.1, p.2))
      | '\x7b' :: rest =>
          match jsonSkipWs rest with
          | '\x7d' :: rest2 => some (.obj [], rest2)
          | _ => (parseJsonObjItems fuel (jsonSkipWs rest)).map (fun p => (.obj p.1, p.2))
      | cs2 => (parseJsonNum cs2).map (fun p => (.num p.1, p.2))

/-- Parses the comma-separated items of a non-empty JSON array up to and
including the closing bracket. -/
def parseJsonArrItems : Nat → List Char → Option (List Json × List Char)
  | 0, _ => none
  | fuel + 1, cs =>
      match parseJsonVal fuel cs with
      | none => none
      | some (v, rest) =>
          match jsonSkipWs rest with
          | ',' :: rest2 => (parseJsonArrItems fuel rest2).map (fun p => (v :: p.1, p.2))
          | ']' :: rest2 => some ([v], rest2)
          | _ => none

/-- Parses the comma-separated members of a non-empty JSON object up to
and including the closing brace. -/
def parseJsonObjItems : Nat → List Char → Option (List (String × Json) × List Char)
  | 0, _ => none
  | fuel + 1, cs =>
      match jsonSkipWs cs with
      | '"' :: rest =>
          match parseJsonStrBody (rest.length + 1) rest "" with
          | none => none
          | some (k, rest2) =>
              match jsonSkipWs rest2 with
              | ':' :: rest3 =>
                  match parseJsonVal fuel rest3 with
                  | none => none
                  | some (v, rest4) =>
                      match jsonSkipWs rest4 with
                      | ',' :: rest5 =>
                          (parseJsonObjItems fuel rest5).map (fun p => ((k, v) :: p.1, p.2))
                      | '\x7d' :: rest5 => some ([(k, v)], rest5)
                      | _ => none
              | _ => none
      | _ => none

end

/-- Models `json.loads`: parse one value, require only whitespace after
it; a failure raises `json.JSONDecodeError`, a `ValueError` subclass. -/
def json_loads (s : String) : Except PyErr Json :=
  match parseJsonVal (s.length + 2) s.data with
  | some (j, rest) =>
      if jsonSkipWs rest = [] then .ok j
      else .error (.valueError "json.decoder.JSONDecodeError: Extra data")
  | none => .error (.valueError "json.decoder.JSONDecodeError: Expecting value")

/-- Logical key name `ACCOUNT_ID_KEY`. -/
def ACCOUNT_ID_KEY : String := "account-id"

/-- Logical key name `APPLICATION_KEY_ID_KEY`. -/
def APPLICATION_KEY_ID_KEY : String := "application-key-id"

/-- Logical key name `ALLOWED_KEY`. -/
def ALLOWED_KEY : String := "allowed"

/-- Logical key name `API_URL_KEY`. -/
def API_URL_KEY : String := "api-url"

/-- Logical key name `APPLICATION_KEY_KEY`. -/
def APPLICATION_KEY_KEY : String := "application-key"

/-- Logical key name `AUTH_TOKEN_KEY`. -/
def AUTH_TOKEN_KEY : String := "auth-token"

/-- Logical key name `BUCKET_MAP_KEY`. -/
def BUCKET_MAP_KEY : String := "bucket-map"

/-- Logical key name `DOWNLOAD_URL_KEY`. -/
def DOWNLOAD_URL_KEY : String := "download-url"

/-- Logical key name `MIN_PART_SIZE_KEY`. -/
def MIN_PART_SIZE_KEY : String := "min-part-size"

/-- Logical key name `REALM_KEY`. -/
def REALM_KEY : String := "realm"

/-- The class constant `ALL_KEYS`: every logical key name the adapter
can ever insert, in source order. -/
def ALL_KEYS : List String :=
  [ACCOUNT_ID_KEY, APPLICATION_KEY_ID_KEY, ALLOWED_KEY, API_URL_KEY,
   APPLICATION_KEY_KEY, AUTH_TOKEN_KEY, BUCKET_MAP_KEY, DOWNLOAD_URL_KEY,
   MIN_PART_SIZE_KEY, REALM_KEY]

/-- Instance state of the `RedisAccountInfo` adapter that the Python
methods can read or write: the stored key prefix (`self._key_prefix`,
called `key_pfx` here).  The Redis client handle is passed separately as
a `RedisDB` state. -/
structure RedisAccountInfo where
  key_pfx : String
  deriving DecidableEq, Repr

/-- Models `RedisAccountInfo.__init__`: the prefix argument is assigned
through the `key_prefix` property setter, which normalizes it with
`six.ensure_str`. -/
def RedisAccountInfo.mk_init (p : String) : RedisAccountInfo :=
  { key_pfx := six_ensure_str p }

/-- Models the `key_prefix` property setter (`@key_prefix.setter`): it
normalizes the value with `six.ensure_str` and stores it. -/
def set_key_pfx (_a : RedisAccountInfo) (value : String) : RedisAccountInfo :=
  { key_pfx := six_ensure_str value }

/-- Physical key property `_account_id_key` (string formatting of the
prefix and the logical name). -/
def _account_id_key (a : RedisAccountInfo) : String := a.key_pfx ++ ACCOUNT_ID_KEY

/-- Physical key property `_allowed_key`. -/
def _allowed_key (a : RedisAccountInfo) : String := a.key_pfx ++ ALLOWED_KEY

/-- Physical key property `_application_key_id_key`. -/
def _application_key_id_key (a : RedisAccountInfo) : String := a.key_pfx ++ APPLICATION_KEY_ID_KEY

/-- Physical key property `_application_key_key`. -/
def _application_key_key (a : RedisAccountInfo) : String := a.key_pfx ++ APPLICATION_KEY_KEY

/-- Physical key property `_auth_token_key`. -/
def _auth_token_key (a : RedisAccountInfo) : String := a.key_pfx ++ AUTH_TOKEN_KEY

/-- Physical key property `_api_url_key`. -/
def _api_url_key (a : RedisAccountInfo) : String := a.key_pfx ++ API_URL_KEY

/-- Physical key property `bucket_map_key`. -/
def bucket_map_key (a : RedisAccountInfo) : String := a.key_pfx ++ BUCKET_MAP_KEY

/-- Physical key property `_download_url_key`. -/
def _download_url_key (a : RedisAccountInfo) : String := a.key_pfx ++ DOWNLOAD_URL_KEY

/-- Physical key property `_minimum_part_size_key`. -/
def _minimum_part_size_key (a : RedisAccountInfo) : String := a.key_pfx ++ MIN_PART_SIZE_KEY

/-- Physical key property `_realm_key`. -/
def _realm_key (a : RedisAccountInfo) : String := a.key_pfx ++ REALM_KEY

/-- Property `_all_keys`: every physical key, i.e. each member of
`ALL_KEYS` with the instance prefix prepended. -/
def _all_keys (a : RedisAccountInfo) : List String :=
  ALL_KEYS.map (fun k => a.key_pfx ++ k)

/-- Models `clear()`: one `redis.delete(*self._all_keys)` request
removing every physical key the adapter owns.  The `super().clear()`
call only resets in-process upload URL pools of the external base class
and touches no Redis state. -/
def clear (a : RedisAccountInfo) (db : RedisDB) : RedisDB :=
  db.deleteKeys (_all_keys a)

/-- The pipeline commands `refresh_entire_bucket_name_cache` queues:
a delete of the bucket map key, then, only when the rebuilt dict is
non-empty (an empty dict would make `hset` error), one `hset` with the
whole mapping. -/
def refresh_cmds (a : RedisAccountInfo) (name_id_iterable : List (String × String)) : List RedisCmd :=
  let new_map := pyDictOf name_id_iterable
  [RedisCmd.del (bucket_map_key a)] ++
    (if new_map = [] then [] else [RedisCmd.hsetMapping (bucket_map_key a) new_map])

/-- Models `refresh_entire_bucket_name_cache(name_id_iterable)`: the
queued commands are executed by one `pipeline.execute()`. -/
def refresh_entire_bucket_name_cache (a : RedisAccountInfo) (db : RedisDB)
    (name_id_iterable : List (String × String)) : RedisDB :=
  db.runPipeline (refresh_cmds a name_id_iterable)

/-- Models `remove_bucket_name(bucket_name)`: `hdel` of one field,
returning 1 if the name was removed and 0 if no such name existed. -/
def remove_bucket_name (a : RedisAccountInfo) (db : RedisDB) (bucket_name : String) :
    RedisDB × Nat :=
  db.hdel (bucket_map_key a) bucket_name

/-- A `b2sdk.v1.Bucket` as far as `save_bucket` reads it: its `name` and
its `id_`. -/
structure Bucket where
  name : String
  id_ : String
  deriving DecidableEq, Repr

/-- Models `save_bucket(bucket)`: `hset` of the bucket name field to the
bucket id, returning 1 if the name was added and 0 if it already
existed (its id then updated if different). -/
def save_bucket (a : RedisAccountInfo) (db : RedisDB) (bucket : Bucket) : RedisDB × Nat :=
  db.hset (bucket_map_key a) bucket.name bucket.id_

/-- Python truthiness coalescing `bucket_name or name` on two optional
strings: the first operand if it is a non-empty string, otherwise the
second. -/
def pyOr (x y : Option String) : Option String :=
  match x with
  | some s => if s = "" then y else some s
  | none => y

/-- Models `get_bucket_id_or_none_from_bucket_name(bucket_name=None,
name=None)`: rejects two differing non-None arguments with
`ValueError`, coalesces with Python `or`, rejects a coalesced `None`
(the `ensure_str` `TypeError` is caught and re-raised as `ValueError`),
then reads the bucket map with `hget`. -/
def get_bucket_id_or_none_from_bucket_name (a : RedisAccountInfo) (db : RedisDB)
    (bucket_name : Option String := none) (name : Option String := none) :
    Except PyErr (Option String) :=
  if name ≠ bucket_name ∧ bucket_name ≠ none ∧ name ≠ none then
    .error (.valueError
      ("Got \x27" ++ (name.getD "None") ++ "\x27 and \x27" ++ (bucket_name.getD "None") ++
       "\x27 in get_bucket_id_or_none_from_bucket_name. Please specify one or the other."))
  else
    match pyOr bucket_name name with
    | none => .error (.valueError "\x27None\x27 is not a valid bucket_name.")
    | some bn => .ok (db.hget (bucket_map_key a) (six_ensure_str bn))

/-- Models `_get_account_info_or_raise(column_name)`: a single
`redis.get`; a `None` result raises `MissingAccountData` with a message
naming the key that was not found, otherwise the read result is
returned as is. -/
def _get_account_info_or_raise (db : RedisDB) (column_name : String) :
    Except PyErr (Option String) :=
  let result := db.get column_name
  if result = none then
    .error (.missingAccountData ("`" ++ column_name ++ "` not found."))
  else
    .ok result

/-- Models `get_account_id()`. -/
def get_account_id (a : RedisAccountInfo) (db : RedisDB) : Except PyErr (Option String) :=
  _get_account_info_or_raise db (_account_id_key a)

/-- Models `get_application_key_id()`. -/
def get_application_key_id (a : RedisAccountInfo) (db : RedisDB) : Except PyErr (Option String) :=
  _get_account_info_or_raise db (_application_key_id_key a)

/-- Models `get_account_auth_token()`. -/
def get_account_auth_token (a : RedisAccountInfo) (db : RedisDB) : Except PyErr (Option String) :=
  _get_account_info_or_raise db (_auth_token_key a)

/-- Models `get_api_url()`: a bare `redis.get` that, unlike every other
field getter of the class, does not go through
`_get_account_info_or_raise` and therefore cannot raise
`MissingAccountData`; an absent key yields `None`. -/
def get_api_url (a : RedisAccountInfo) (db : RedisDB) : Option String :=
  db.get (_api_url_key a)

/-- Models `get_application_key()`. -/
def get_application_key (a : RedisAccountInfo) (db : RedisDB) : Except PyErr (Option String) :=
  _get_account_info_or_raise db (_application_key_key a)

/-- Models `get_download_url()`. -/
def get_download_url (a : RedisAccountInfo) (db : RedisDB) : Except PyErr (Option String) :=
  _get_account_info_or_raise db (_download_url_key a)

/-- Models `get_realm()`. -/
def get_realm (a : RedisAccountInfo) (db : RedisDB) : Except PyErr (Option String) :=
  _get_account_info_or_raise db (_realm_key a)

/-- Models `get_minimum_part_size()`: `int(...)` applied to the result
of `_get_account_info_or_raise`; a non-numeric stored value makes
`int()` raise `ValueError` (and a `None` argument would raise
`TypeError`, a branch shown unreachable elsewhere). -/
def get_minimum_part_size (a : RedisAccountInfo) (db : RedisDB) : Except PyErr Int :=
  match _get_account_info_or_raise db (_minimum_part_size_key a) with
  | .error e => .error e
  | .ok none =>
      .error (.typeError
        "int() argument must be a string, a bytes-like object or a real number, not \x27NoneType\x27")
  | .ok (some s) =>
      match pyIntParse s with
      | some n => .ok n
      | none => .error (.valueError ("invalid literal for int() with base 10: \x27" ++ s ++ "\x27"))

/-- Modelled from the spec: the documented default permission
descriptor `DEFAULT_ALLOWED` of the external `b2sdk.v1` base class
(`AbstractAccountInfo`), which is not part of this repository: no
bucket restriction, no name restriction, and the full capability list. -/
def DEFAULT_ALLOWED : Json :=
  .obj [("bucketId", .null), ("bucketName", .null),
        ("capabilities",
          .arr [.str "listKeys", .str "writeKeys", .str "deleteKeys",
                .str "listBuckets", .str "writeBuckets", .str "deleteBuckets",
                .str "listFiles", .str "readFiles", .str "shareFiles",
                .str "writeFiles", .str "deleteFiles"]),
        ("namePrefix", .null)]

/-- Models `get_allowed()` exactly as written, including the branch
that returns `DEFAULT_ALLOWED` when `_get_account_info_or_raise`
returns `None` — a branch the function can in fact never take. -/
def get_allowed (a : RedisAccountInfo) (db : RedisDB) : Except PyErr Json :=
  match _get_account_info_or_raise db (_allowed_key a) with
  | .error e => .error e
  | .ok allowed_json =>
      match allowed_json with
      | none => .ok DEFAULT_ALLOWED
      | some s => json_loads s

/-- Models `_set_auth_data(...)`: one `redis.mset` of all nine session
fields; redis-py encodes the `int` minimum part size with `str`, and
the allowed dict is serialized with `json.dumps`. -/
def _set_auth_data (a : RedisAccountInfo) (db : RedisDB)
    (account_id auth_token api_url download_url : String) (minimum_part_size : Int)
    (application_key realm : String) (allowed : Json) (application_key_id : String) : RedisDB :=
  db.msetList
    [(_account_id_key a, account_id),
     (_application_key_id_key a, application_key_id),
     (_application_key_key a, application_key),
     (_auth_token_key a, auth_token),
     (_api_url_key a, api_url),
     (_download_url_key a, download_url),
     (_minimum_part_size_key a, pyStrInt minimum_part_size),
     (_realm_key a, realm),
     (_allowed_key a, Json.dumps allowed)]

/-- A full session record, the bundle of arguments the external client
passes to `_set_auth_data` when a session is established. -/
structure SessionRecord where
  account_id : String
  auth_token : String
  api_url : String
  download_url : String
  minimum_part_size : Int
  application_key : String
  realm : String
  allowed : Json
  application_key_id : String

/-- Establishing a session: `_set_auth_data` applied to the fields of a
session record (the spec calls this operation `setSession`). -/
def setSession (a : RedisAccountInfo) (db : RedisDB) (r : SessionRecord) : RedisDB :=
  _set_auth_data a db r.account_id r.auth_token r.api_url r.download_url
    r.minimum_part_size r.application_key r.realm r.allowed r.application_key_id

/-- The full mutable state a store instance works on: the adapter's own
instance attribute (the key prefix) and the shared Redis database. -/
structure StoreState where
  adapter : RedisAccountInfo
  db : RedisDB

/-- The closed inventory of the store's operations after construction:
the `key_prefix` property setter, every mutating method, and every
reading method (reads leave the state unchanged). -/
inductive StoreOp where
  | set_key_pfx_op (value : String)
  | clear_op
  | set_auth_data_op (account_id auth_token api_url download_url : String)
      (minimum_part_size : Int) (application_key realm : String)
      (allowed : Json) (application_key_id : String)
  | refresh_cache_op (name_id_iterable : List (String × String))
  | remove_bucket_name_op (bucket_name : String)
  | save_bucket_op (bucket : Bucket)
  | lookup_bucket_op (bucket_name name : Option String)
  | get_account_id_op
  | get_application_key_id_op
  | get_account_auth_token_op
  | get_api_url_op
  | get_application_key_op
  | get_download_url_op
  | get_realm_op
  | get_minimum_part_size_op
  | get_allowed_op

/-- Whether an operation is the `key_prefix` property setter. -/
def StoreOp.isSetKeyPfx : StoreOp → Bool
  | .set_key_pfx_op _ => true
  | _ => false

/-- State effect of each store operation; reading methods return values
through `Except` but never write, so they map the state to itself. -/
def StoreOp.run : StoreOp → StoreState → StoreState
  | .set_key_pfx_op v, s => { s with adapter := set_key_pfx s.adapter v }
  | .clear_op, s => { s with db := clear s.adapter s.db }
  | .set_auth_data_op aid tok api dl mps ak rlm alw akid, s =>
      { s with db := _set_auth_data s.adapter s.db aid tok api dl mps ak rlm alw akid }
  | .refresh_cache_op es, s =>
      { s with db := refresh_entire_bucket_name_cache s.adapter s.db es }
  | .remove_bucket_name_op n, s =>
      { s with db := (remove_bucket_name s.adapter s.db n).1 }
  | .save_bucket_op b, s => { s with db := (save_bucket s.adapter s.db b).1 }
  | .lookup_bucket_op _ _, s => s
  | .get_account_id_op, s => s
  | .get_application_key_id_op, s => s
  | .get_account_auth_token_op, s => s
  | .get_api_url_op, s => s
  | .get_application_key_op, s => s
  | .get_download_url_op, s => s
  | .get_realm_op, s => s
  | .get_minimum_part_size_op, s => s
  | .get_allowed_op, s => s

/-- A concrete adapter instance with the default construction prefix. -/
def demoAdapter : RedisAccountInfo := RedisAccountInfo.mk_init "b2sdk:"
/-- A concrete session record used for evaluating the adapter. -/
def demoSession : SessionRecord :=
  { account_id := "acct-1",
    auth_token := "tok-1",
    api_url := "https://api000.backblazeb2.example",
    download_url := "https://f000.backblazeb2.example",
    minimum_part_size := 100000000,
    application_key := "secret-1",
    realm := "production",
    allowed := Json.obj
      [("bucketId", Json.null), ("bucketName", Json.null),
       ("capabilities", Json.arr [Json.str "listBuckets", Json.str "readFiles"]),
       ("namePrefix", Json.null)],
    application_key_id := "keyid-1" }
/-- The store after a session was established and then `clear()` ran. -/
def demoCleared : RedisDB :=
  clear demoAdapter (setSession demoAdapter RedisDB.empty demoSession)
/-- A store holding only the allowed field, with the JSON text `null`. -/
def demoAllowedSet : RedisDB :=
  RedisDB.setStr RedisDB.empty (_allowed_key demoAdapter) "null"
/-- A store holding only the minimum part size field, numeric. -/
def demoMinSet : RedisDB :=
  RedisDB.setStr RedisDB.empty (_minimum_part_size_key demoAdapter) "5242880"
/-- A store holding only the minimum part size field, non-numeric. -/
def demoBadMinSet : RedisDB :=
  RedisDB.setStr RedisDB.empty (_minimum_part_size_key demoAdapter) "5 MB"
/-- A store whose bucket map caches an entry for the empty name. -/
def demoBucketDb : RedisDB :=
  (RedisDB.hset RedisDB.empty (bucket_map_key demoAdapter) "" "bid-empty").1
/-- The concrete full store state used for the operation inventory. -/
def demoState : StoreState := { adapter := demoAdapter, db := RedisDB.empty }

/-- Appending the same string on the left is injective. -/
theorem string_append_left_cancel {p a b : String} (h : p ++ a = p ++ b) : a = b := by
  have h2 : (p ++ a).data = (p ++ b).data := congrArg String.data h
  simp [String.data_append] at h2
  exact String.ext h2

/-- Distinct logical names give distinct physical keys under one prefix. -/
theorem key_pfx_append_ne {p a b : String} (h : a ≠ b) : p ++ a ≠ p ++ b :=
  fun he => h (string_append_left_cancel he)

/-- The digit list of `natDigitsRev` evaluates back to its input when
the fuel covers it. -/
theorem valRev_natDigitsRev (fuel : Nat) : ∀ n, n ≤ fuel → valRev (natDigitsRev fuel n) = n := by
  induction fuel with
  | zero => intro n h; interval_cases n; rfl
  | succ f ih =>
      intro n h
      by_cases hn : n = 0
      · subst hn; simp [natDigitsRev, valRev]
      · have hdiv : n / 10 ≤ f := by
          have := Nat.div_lt_self (Nat.pos_of_ne_zero hn) (by norm_num : (1:Nat) < 10)
          omega
        simp only [natDigitsRev, if_neg hn, valRev, ih _ hdiv]
        omega

/-- Every digit produced by `natDigitsRev` is below 10. -/
theorem natDigitsRev_lt (fuel : Nat) : ∀ n d, d ∈ natDigitsRev fuel n → d < 10 := by
  induction fuel with
  | zero => intro n d h; simp [natDigitsRev] at h
  | succ f ih =>
      intro n d h
      by_cases hn : n = 0
      · subst hn; simp [natDigitsRev] at h
      · simp only [natDigitsRev, if_neg hn, List.mem_cons] at h
        rcases h with h | h
        · subst h; exact Nat.mod_lt _ (by norm_num)
        · exact ih _ _ h

/-- A non-zero number has a non-empty digit list. -/
theorem natDigitsRev_ne_nil (fuel n : Nat) (hf : fuel ≠ 0) (hn : n ≠ 0) :
    natDigitsRev fuel n ≠ [] := by
  cases fuel with
  | zero => exact absurd rfl hf
  | succ f => simp [natDigitsRev, hn]

/-- Code point of a digit character. -/
theorem digitChar_toNat : ∀ d, d < 10 → (digitChar d).toNat = 48 + d := by decide

/-- The digit-run reader consumes a rendered digit list into the
left fold of the digit values. -/
theorem parseDigitsAcc_map (ds : List Nat) : ∀ acc, (∀ d ∈ ds, d < 10) →
    parseDigitsAcc (ds.map digitChar) acc = some (ds.foldl (fun a d => a * 10 + d) acc) := by
  induction ds with
  | nil => intro acc _; rfl
  | cons d ds ih =>
      intro acc h
      have hd : d < 10 := h d (List.mem_cons_self d ds)
      have htn : (digitChar d).toNat = 48 + d := digitChar_toNat d hd
      simp only [List.map_cons, parseDigitsAcc, htn]
      rw [if_pos (by omega)]
      have : 48 + d - 48 = d := by omega
      rw [this, ih _ (fun x hx => h x (List.mem_cons_of_mem d hx))]
      rfl

/-- Folding most-significant-first digits equals the value of the
least-significant-first list. -/
theorem foldl_reverse_valRev (ds : List Nat) : ∀ acc,
    (ds.reverse).foldl (fun a d => a * 10 + d) acc = acc * 10 ^ ds.length + valRev ds := by
  induction ds with
  | nil => intro acc; simp [valRev]
  | cons d ds ih =>
      intro acc
      simp only [List.reverse_cons, List.foldl_append, List.foldl_cons, List.foldl_nil, ih,
        valRev, List.length_cons]
      ring

/-- The decimal rendering of a natural number is a non-empty digit run
that the digit reader parses back to the same number. -/
theorem pyStrNat_digits (n : Nat) :
    (pyStrNat n).data ≠ [] ∧ (∀ c ∈ (pyStrNat n).data, 48 ≤ c.toNat ∧ c.toNat ≤ 57) ∧
    parseNonemptyDigits (pyStrNat n).data = some n := by
  by_cases hn : n = 0
  · subst hn; refine ⟨by decide, by decide, by decide⟩
  · have hds : (pyStrNat n).data = ((natDigitsRev n n).reverse).map digitChar := by
      simp [pyStrNat, hn, List.map_reverse]
    have hne : natDigitsRev n n ≠ [] :=
      natDigitsRev_ne_nil n n (by omega) hn
    have hnonnil : (pyStrNat n).data ≠ [] := by
      rw [hds]
      simp only [ne_eq, List.map_eq_nil_iff, List.reverse_eq_nil_iff]
      exact hne
    have hmem : ∀ c ∈ (pyStrNat n).data, 48 ≤ c.toNat ∧ c.toNat ≤ 57 := by
      rw [hds]
      intro c hc
      obtain ⟨d, hd, rfl⟩ := List.mem_map.mp hc
      have hd10 : d < 10 := natDigitsRev_lt n n d (List.mem_reverse.mp hd)
      rw [digitChar_toNat d hd10]
      omega
    refine ⟨hnonnil, hmem, ?_⟩
    rw [parseNonemptyDigits, if_neg hnonnil, hds]
    rw [parseDigitsAcc_map _ _ (fun d hd =>
      natDigitsRev_lt n n d (List.mem_reverse.mp hd))]
    rw [foldl_reverse_valRev, valRev_natDigitsRev n n le_rfl]
    simp

/-- Python `int` parses Python `str` of any integer back to itself
(the encode-decode round trip behind the minimum part size field). -/
theorem pyIntParse_pyStrInt (i : Int) : pyIntParse (pyStrInt i) = some i := by
  obtain ⟨hne, hmem, hparse⟩ := pyStrNat_digits i.natAbs
  by_cases hi : i < 0
  · rw [pyStrInt, if_pos hi]
    have hdata : ("-" ++ pyStrNat i.natAbs).data = '-' :: (pyStrNat i.natAbs).data := by
      rw [String.data_append]; rfl
    rw [pyIntParse, hdata]
    simp only [pyIntParseChars, hparse, if_true, Option.map_some', Int.ofNat_eq_natCast]
    rw [Int.natCast_natAbs, abs_of_neg hi, neg_neg]
  · rw [pyStrInt, if_neg hi, pyIntParse]
    rcases hcs : (pyStrNat i.natAbs).data with _ | ⟨c, cs⟩
    · exact absurd hcs hne
    · have hc : 48 ≤ c.toNat ∧ c.toNat ≤ 57 := by
        apply hmem; rw [hcs]; exact List.mem_cons_self c cs
      have hcm : c ≠ '-' := by
        intro h; subst h; exact absurd hc (by decide)
      have hcp : c ≠ '+' := by
        intro h; subst h; exact absurd hc (by decide)
      simp only [pyIntParseChars, if_neg hcm, if_neg hcp]
      rw [← hcs, hparse]
      simp only [Option.map_some', Int.ofNat_eq_natCast]
      rw [Int.natCast_natAbs, abs_of_nonneg (by omega)]

/-- Prepending a common prefix to two strings preserves and reflects
equality. -/
theorem string_append_left_inj (p a b : String) : p ++ a = p ++ b ↔ a = b :=
  ⟨string_append_left_cancel, fun h => by rw [h]⟩

/-- C3: for every session record `r`, `setSession(r)` followed by each
session-field getter returns exactly the corresponding field of `r`:
the string fields verbatim (the api url through its raw read), the
minimum part size parsed back from its `str` encoding to the original
integer, and the allowed descriptor round-tripped through its
`json.dumps`/`json.loads` text serialization. -/
theorem c3_setSession_getter_roundtrip (a : RedisAccountInfo) (db : RedisDB) (r : SessionRecord) :
    get_account_id a (setSession a db r) = .ok (some r.account_id) ∧
    get_application_key_id a (setSession a db r) = .ok (some r.application_key_id) ∧
    get_application_key a (setSession a db r) = .ok (some r.application_key) ∧
    get_account_auth_token a (setSession a db r) = .ok (some r.auth_token) ∧
    get_api_url a (setSession a db r) = some r.api_url ∧
    get_download_url a (setSession a db r) = .ok (some r.download_url) ∧
    get_realm a (setSession a db r) = .ok (some r.realm) ∧
    get_minimum_part_size a (setSession a db r) = .ok r.minimum_part_size ∧
    get_allowed a (setSession a db r) = json_loads (Json.dumps r.allowed) := by
  refine ⟨?_, ?_, ?_, ?_, ?_, ?_, ?_, ?_, ?_⟩ <;>
    simp [setSession, _set_auth_data, get_account_id, get_application_key_id,
      get_application_key, get_account_auth_token, get_api_url, get_download_url,
      get_realm, get_minimum_part_size, get_allowed, _get_account_info_or_raise,
      RedisDB.get, RedisDB.msetList, RedisDB.setStr, _account_id_key,
      _application_key_id_key, _application_key_key, _auth_token_key, _api_url_key,
      _download_url_key, _minimum_part_size_key, _realm_key, _allowed_key,
      ACCOUNT_ID_KEY, APPLICATION_KEY_ID_KEY, APPLICATION_KEY_KEY, AUTH_TOKEN_KEY,
      API_URL_KEY, DOWNLOAD_URL_KEY, MIN_PART_SIZE_KEY, REALM_KEY, ALLOWED_KEY,
      string_append_left_inj, pyIntParse_pyStrInt]

/-- C1: after `clear()`, the seven getters that go through
`_get_account_info_or_raise` do fail with `MissingAccountData` naming
the missing key, but `get_api_url` — contrary to the claim that every
session-field getter fails with `MissingData` — raises nothing and
returns `None`. -/
theorem c1_getters_after_clear :
    get_account_id demoAdapter demoCleared =
      .error (.missingAccountData "`b2sdk:account-id` not found.") ∧
    get_application_key_id demoAdapter demoCleared =
      .error (.missingAccountData "`b2sdk:application-key-id` not found.") ∧
    get_application_key demoAdapter demoCleared =
      .error (.missingAccountData "`b2sdk:application-key` not found.") ∧
    get_account_auth_token demoAdapter demoCleared =
      .error (.missingAccountData "`b2sdk:auth-token` not found.") ∧
    get_download_url demoAdapter demoCleared =
      .error (.missingAccountData "`b2sdk:download-url` not found.") ∧
    get_realm demoAdapter demoCleared =
      .error (.missingAccountData "`b2sdk:realm` not found.") ∧
    get_minimum_part_size demoAdapter demoCleared =
      .error (.missingAccountData "`b2sdk:min-part-size` not found.") ∧
    get_api_url demoAdapter demoCleared = none := by
  refine ⟨?_, ?_, ?_, ?_, ?_, ?_, ?_, ?_⟩ <;> rfl

/-- C2 counterexample: with the allowed field absent (nothing was ever
written), `get_allowed` does not return the default descriptor — it
raises `MissingAccountData`, so the claim that absence yields the
documented default without failing is false on this code. -/
theorem c2_counterexample_get_allowed_raises :
    get_allowed demoAdapter RedisDB.empty =
      .error (.missingAccountData "`b2sdk:allowed` not found.") ∧
    get_allowed demoAdapter RedisDB.empty ≠ .ok DEFAULT_ALLOWED :=
  ⟨rfl, fun h => Except.noConfusion h⟩

/-- C2 amended: when the allowed field is absent `get_allowed` fails
with `MissingAccountData` naming the key (the default-descriptor branch
is dead code); when it is present, `get_allowed` returns the
`json.loads` deserialization of the stored text. -/
theorem c2_get_allowed_amended (a : RedisAccountInfo) (db : RedisDB) :
    (db.strs (_allowed_key a) = none →
      get_allowed a db =
        .error (.missingAccountData ("`" ++ _allowed_key a ++ "` not found."))) ∧
    (∀ s, db.strs (_allowed_key a) = some s → get_allowed a db = json_loads s) := by
  constructor
  · intro h
    simp [get_allowed, _get_account_info_or_raise, RedisDB.get, h]
  · intro s h
    simp [get_allowed, _get_account_info_or_raise, RedisDB.get, h]

/-- Witness for the amended C2 theorem at two concrete stores. -/
theorem c2_get_allowed_amended_witness :
    (RedisDB.empty.strs (_allowed_key demoAdapter) = none ∧
      get_allowed demoAdapter RedisDB.empty =
        .error (.missingAccountData ("`" ++ _allowed_key demoAdapter ++ "` not found."))) ∧
    (demoAllowedSet.strs (_allowed_key demoAdapter) = some "null" ∧
      get_allowed demoAdapter demoAllowedSet = json_loads "null") :=
  ⟨⟨rfl, (c2_get_allowed_amended demoAdapter RedisDB.empty).1 rfl⟩,
   ⟨rfl, (c2_get_allowed_amended demoAdapter demoAllowedSet).2 "null" rfl⟩⟩

/-- C10: `_get_account_info_or_raise` never returns `None` (it raises
instead), so the branch of `get_allowed` that returns the default
descriptor on a `None` read result is unreachable: `get_allowed` is
exactly raise-on-absent, `json.loads`-on-present, for every store
state. -/
theorem c10_default_branch_unreachable :
    (∀ (db : RedisDB) (k : String) (r : Option String),
      _get_account_info_or_raise db k = .ok r → r.isSome) ∧
    (∀ (a : RedisAccountInfo) (db : RedisDB),
      get_allowed a db =
        match db.strs (_allowed_key a) with
        | none => .error (.missingAccountData ("`" ++ _allowed_key a ++ "` not found."))
        | some s => json_loads s) := by
  constructor
  · intro db k r h
    rcases hg : db.get k with _ | v
    · simp [_get_account_info_or_raise, hg] at h
    · simp [_get_account_info_or_raise, hg] at h
      rw [← h]
      rfl
  · intro a db
    rcases hg : db.strs (_allowed_key a) with _ | v <;>
      simp [get_allowed, _get_account_info_or_raise, RedisDB.get, hg]

/-- Witness for C10 at a concrete store with a stored allowed value. -/
theorem c10_default_branch_unreachable_witness :
    _get_account_info_or_raise demoAllowedSet (_allowed_key demoAdapter) = .ok (some "null") ∧
    (some "null" : Option String).isSome :=
  ⟨rfl, c10_default_branch_unreachable.1 demoAllowedSet (_allowed_key demoAdapter)
    (some "null") rfl⟩

/-- C7: a stored `"5242880"` makes `get_minimum_part_size` return the
integer 5242880; a stored value `int()` cannot parse makes it fail with
`ValueError` (the InvalidFormat kind), a constructor distinct from
`MissingAccountData` whatever the messages are. -/
theorem c7_minimum_part_size_parse (a : RedisAccountInfo) (db : RedisDB) :
    (db.strs (_minimum_part_size_key a) = some "5242880" →
      get_minimum_part_size a db = .ok 5242880) ∧
    (∀ s, db.strs (_minimum_part_size_key a) = some s → pyIntParse s = none →
      get_minimum_part_size a db =
        .error (.valueError ("invalid literal for int() with base 10: \x27" ++ s ++ "\x27"))) ∧
    (∀ m1 m2, PyErr.valueError m1 ≠ PyErr.missingAccountData m2) := by
  refine ⟨?_, ?_, fun m1 m2 h => PyErr.noConfusion h⟩
  · intro h
    have hp : pyIntParse "5242880" = some 5242880 := by decide
    simp [get_minimum_part_size, _get_account_info_or_raise, RedisDB.get, h, hp]
  · intro s h hp
    simp [get_minimum_part_size, _get_account_info_or_raise, RedisDB.get, h, hp]

/-- Witness for C7 at a numeric and a non-numeric concrete store. -/
theorem c7_minimum_part_size_parse_witness :
    (demoMinSet.strs (_minimum_part_size_key demoAdapter) = some "5242880" ∧
      get_minimum_part_size demoAdapter demoMinSet = .ok 5242880) ∧
    (demoBadMinSet.strs (_minimum_part_size_key demoAdapter) = some "5 MB" ∧
      pyIntParse "5 MB" = none ∧
      get_minimum_part_size demoAdapter demoBadMinSet =
        .error (.valueError "invalid literal for int() with base 10: \x275 MB\x27")) :=
  ⟨⟨rfl, (c7_minimum_part_size_parse demoAdapter demoMinSet).1 rfl⟩,
   ⟨rfl, by decide,
    (c7_minimum_part_size_parse demoAdapter demoBadMinSet).2.1 "5 MB" rfl (by decide)⟩⟩

/-- C5 counterexample: with exactly one argument given — `bucket_name`
as the empty string — the aliased lookup does not behave as a lookup of
that name (the cache even holds an id for it): the Python `or`
coalescing treats the empty string as absent, so the call is rejected
with `ValueError`. -/
theorem c5_counterexample_lone_empty_bucket_name :
    get_bucket_id_or_none_from_bucket_name demoAdapter demoBucketDb (some "") none =
      .error (.valueError "\x27None\x27 is not a valid bucket_name.") ∧
    RedisDB.hget demoBucketDb (bucket_map_key demoAdapter) "" = some "bid-empty" :=
  ⟨rfl, rfl⟩

/-- C5 amended: both arguments given and differing is rejected with
`ValueError`; neither given is rejected with `ValueError`; both given
and equal, a lone `name`, or a lone non-empty `bucket_name` behave as a
plain cache lookup of that name; a lone empty-string `bucket_name` is
coalesced away by Python `or` and rejected with `ValueError`. -/
theorem c5_alias_handling_amended (a : RedisAccountInfo) (db : RedisDB) :
    (∀ s1 s2, s1 ≠ s2 →
      get_bucket_id_or_none_from_bucket_name a db (some s1) (some s2) =
        .error (.valueError ("Got \x27" ++ s2 ++ "\x27 and \x27" ++ s1 ++
          "\x27 in get_bucket_id_or_none_from_bucket_name. Please specify one or the other."))) ∧
    (get_bucket_id_or_none_from_bucket_name a db none none =
      .error (.valueError "\x27None\x27 is not a valid bucket_name.")) ∧
    (∀ s, get_bucket_id_or_none_from_bucket_name a db (some s) (some s) =
      .ok (db.hget (bucket_map_key a) s)) ∧
    (∀ s, get_bucket_id_or_none_from_bucket_name a db none (some s) =
      .ok (db.hget (bucket_map_key a) s)) ∧
    (∀ s, s ≠ "" → get_bucket_id_or_none_from_bucket_name a db (some s) none =
      .ok (db.hget (bucket_map_key a) s)) ∧
    (get_bucket_id_or_none_from_bucket_name a db (some "") none =
      .error (.valueError "\x27None\x27 is not a valid bucket_name.")) := by
  refine ⟨?_, ?_, ?_, ?_, ?_, ?_⟩
  · intro s1 s2 h
    simp [get_bucket_id_or_none_from_bucket_name, Ne.symm h]
  · rfl
  · intro s
    simp [get_bucket_id_or_none_from_bucket_name, pyOr, six_ensure_str, ite_self]
  · intro s
    simp [get_bucket_id_or_none_from_bucket_name, pyOr, six_ensure_str]
  · intro s h
    simp [get_bucket_id_or_none_from_bucket_name, pyOr, six_ensure_str, h]
  · rfl

/-- Witness for the amended C5 theorem at concrete arguments. -/
theorem c5_alias_handling_amended_witness :
    get_bucket_id_or_none_from_bucket_name demoAdapter RedisDB.empty (some "y") (some "x") =
      .error (.valueError ("Got \x27x\x27 and \x27y\x27 in " ++
        "get_bucket_id_or_none_from_bucket_name. Please specify one or the other.")) ∧
    get_bucket_id_or_none_from_bucket_name demoAdapter RedisDB.empty (some "pics") none =
      .ok none :=
  ⟨(c5_alias_handling_amended demoAdapter RedisDB.empty).1 "y" "x" (by decide),
   (c5_alias_handling_amended demoAdapter RedisDB.empty).2.2.2.2.1 "pics" (by decide)⟩

/-- C4 counterexample: the `key_prefix` property setter is an operation
of the store other than construction, and running it changes the
prefix, and with it every derived physical key. -/
theorem c4_counterexample_setter_changes_pfx :
    ((StoreOp.set_key_pfx_op "other:").run demoState).adapter.key_pfx = "other:" ∧
    demoState.adapter.key_pfx = "b2sdk:" ∧
    _account_id_key ((StoreOp.set_key_pfx_op "other:").run demoState).adapter ≠
      _account_id_key demoState.adapter :=
  ⟨rfl, rfl, by decide⟩

/-- C4 amended: the prefix is normalized by the property setter that
construction also uses, and the setter remains callable afterward, so
the prefix is not immutable; but every store operation other than that
setter leaves the adapter instance — hence the prefix every physical
key is derived from — unchanged. -/
theorem c4_only_setter_changes_pfx (op : StoreOp) (s : StoreState)
    (h : op.isSetKeyPfx = false) : (op.run s).adapter = s.adapter := by
  cases op <;> simp_all [StoreOp.run, StoreOp.isSetKeyPfx]

/-- Witness for the amended C4 theorem at a concrete operation. -/
theorem c4_only_setter_changes_pfx_witness :
    StoreOp.clear_op.isSetKeyPfx = false ∧
    (StoreOp.clear_op.run demoState).adapter = demoState.adapter :=
  ⟨rfl, c4_only_setter_changes_pfx StoreOp.clear_op demoState rfl⟩

/-- Inserting into a Python dict never yields an empty dict. -/
theorem pyDictInsert_ne_nil (m : List (String × String)) (k v : String) :
    pyDictInsert m k v ≠ [] := by
  rcases m with _ | ⟨p, m'⟩
  · simp [pyDictInsert]
  · by_cases h : (p :: m').any (fun kv => kv.1 = k) <;> simp [pyDictInsert, h]

/-- Folding dict insertions over a non-empty start stays non-empty. -/
theorem foldl_pyDictInsert_ne_nil (l : List (String × String)) :
    ∀ m, m ≠ [] → l.foldl (fun m kv => pyDictInsert m kv.1 kv.2) m ≠ [] := by
  induction l with
  | nil => intro m h; exact h
  | cons kv l ih =>
      intro m _
      exact ih (pyDictInsert m kv.1 kv.2) (pyDictInsert_ne_nil m kv.1 kv.2)

/-- The dict comprehension of a non-empty pair list is non-empty. -/
theorem pyDictOf_ne_nil (l : List (String × String)) (h : l ≠ []) : pyDictOf l ≠ [] := by
  rcases l with _ | ⟨kv, l'⟩
  · exact absurd rfl h
  · exact foldl_pyDictInsert_ne_nil l' (pyDictInsert [] kv.1 kv.2)
      (pyDictInsert_ne_nil [] kv.1 kv.2)

/-- C6: `refresh_entire_bucket_name_cache` runs delete-then-repopulate
as one pipelined unit; with no entries the queued commands are just the
single delete (no zero-entry `hset` is ever issued); the resulting
cache table is exactly the dict built from the entries, so after an
empty refresh every lookup is absent. -/
theorem c6_refresh_cache (a : RedisAccountInfo) (db : RedisDB)
    (entries : List (String × String)) :
    (refresh_entire_bucket_name_cache a db entries =
      db.runPipeline (refresh_cmds a entries)) ∧
    (entries = [] → refresh_cmds a entries = [RedisCmd.del (bucket_map_key a)]) ∧
    (entries ≠ [] → refresh_cmds a entries =
      [RedisCmd.del (bucket_map_key a),
       RedisCmd.hsetMapping (bucket_map_key a) (pyDictOf entries)]) ∧
    (∀ f, (refresh_entire_bucket_name_cache a db entries).hget (bucket_map_key a) f =
      (pyDictOf entries).lookup f) ∧
    (entries = [] → ∀ f,
      (refresh_entire_bucket_name_cache a db entries).hget (bucket_map_key a) f = none) := by
  refine ⟨rfl, ?_, ?_, ?_, ?_⟩
  · intro h; subst h; rfl
  · intro h
    simp [refresh_cmds, pyDictOf_ne_nil entries h]
  · intro f
    by_cases he : entries = []
    · subst he
      simp [refresh_entire_bucket_name_cache, refresh_cmds, pyDictOf,
        RedisDB.runPipeline, RedisCmd.apply, RedisDB.deleteKeys, RedisDB.hget]
    · simp only [refresh_entire_bucket_name_cache, refresh_cmds,
        if_neg (pyDictOf_ne_nil entries he), RedisDB.runPipeline, List.append_eq,
        List.nil_append, List.foldl_cons, List.foldl_nil, RedisCmd.apply,
        RedisDB.deleteKeys, RedisDB.hsetMapping, RedisDB.hget]
      rcases hl : (pyDictOf entries).lookup f with _ | v <;> simp [hl]
  · intro he f
    subst he
    simp [refresh_entire_bucket_name_cache, refresh_cmds, pyDictOf,
      RedisDB.runPipeline, RedisCmd.apply, RedisDB.deleteKeys, RedisDB.hget]

/-- Witness for C6 at an empty and a non-empty concrete entry list. -/
theorem c6_refresh_cache_witness :
    refresh_cmds demoAdapter ([] : List (String × String)) =
      [RedisCmd.del (bucket_map_key demoAdapter)] ∧
    refresh_cmds demoAdapter [("pics", "4_z27c")] =
      [RedisCmd.del (bucket_map_key demoAdapter),
       RedisCmd.hsetMapping (bucket_map_key demoAdapter) [("pics", "4_z27c")]] ∧
    (refresh_entire_bucket_name_cache demoAdapter demoBucketDb []).hget
      (bucket_map_key demoAdapter) "pics" = none :=
  ⟨(c6_refresh_cache demoAdapter RedisDB.empty []).2.1 rfl,
   by
    have h := (c6_refresh_cache demoAdapter RedisDB.empty [("pics", "4_z27c")]).2.2.1
      (by decide)
    simpa [pyDictOf, pyDictInsert] using h,
   (c6_refresh_cache demoAdapter demoBucketDb []).2.2.2.2 rfl "pics"⟩

/-- Two database states with the same string map and the same hash map
are equal. -/
theorem RedisDB.ext_eq (d1 d2 : RedisDB) (h1 : d1.strs = d2.strs)
    (h2 : d1.hashes = d2.hashes) : d1 = d2 := by
  cases d1; cases d2; cases h1; cases h2; rfl

/-- C8: `clear` is a single delete request of exactly the ten physical
keys — the nine session-field keys and the cache-table key, each the
prefix concatenated with the logical name; those keys become absent,
every other key is untouched, and clearing again is a no-op. -/
theorem c8_clear_deletes_exactly (a : RedisAccountInfo) (db : RedisDB) :
    (_all_keys a =
      [a.key_pfx ++ "account-id", a.key_pfx ++ "application-key-id",
       a.key_pfx ++ "allowed", a.key_pfx ++ "api-url",
       a.key_pfx ++ "application-key", a.key_pfx ++ "auth-token",
       a.key_pfx ++ "bucket-map", a.key_pfx ++ "download-url",
       a.key_pfx ++ "min-part-size", a.key_pfx ++ "realm"]) ∧
    (clear a db = db.deleteKeys (_all_keys a)) ∧
    (∀ k, k ∈ _all_keys a →
      (clear a db).strs k = none ∧ ∀ f, (clear a db).hashes k f = none) ∧
    (∀ k, k ∉ _all_keys a →
      (clear a db).strs k = db.strs k ∧ ∀ f, (clear a db).hashes k f = db.hashes k f) ∧
    clear a (clear a db) = clear a db := by
  refine ⟨rfl, rfl, ?_, ?_, ?_⟩
  · intro k hk
    exact ⟨by simp [clear, RedisDB.deleteKeys, hk], fun f => by
      simp [clear, RedisDB.deleteKeys, hk]⟩
  · intro k hk
    exact ⟨by simp [clear, RedisDB.deleteKeys, hk], fun f => by
      simp [clear, RedisDB.deleteKeys, hk]⟩
  · apply RedisDB.ext_eq
    · funext k
      by_cases hk : k ∈ _all_keys a <;> simp [clear, RedisDB.deleteKeys, hk]
    · funext k f
      by_cases hk : k ∈ _all_keys a <;> simp [clear, RedisDB.deleteKeys, hk]

/-- Witness for C8 at concrete keys of the demo store. -/
theorem c8_clear_deletes_exactly_witness :
    ("b2sdk:realm" ∈ _all_keys demoAdapter ∧
      (clear demoAdapter demoMinSet).strs "b2sdk:realm" = none) ∧
    ("other:realm" ∉ _all_keys demoAdapter ∧
      (clear demoAdapter demoMinSet).strs "other:realm" = demoMinSet.strs "other:realm") :=
  ⟨⟨by decide, ((c8_clear_deletes_exactly demoAdapter demoMinSet).2.2.1 "b2sdk:realm"
      (by decide)).1⟩,
   ⟨by decide, ((c8_clear_deletes_exactly demoAdapter demoMinSet).2.2.2.1 "other:realm"
      (by decide)).1⟩⟩

/-- C9: `save_bucket` reports 1 exactly when the name was not yet
cached (0 when it overwrote), stores the id under the name, and leaves
other names alone; concretely, saving name `a` with id `1` and then
with id `2` reports created-then-overwrote and the lookup then returns
`2`. -/
theorem c9_save_bucket (a : RedisAccountInfo) (db : RedisDB) (b : Bucket) :
    ((save_bucket a db b).2 =
      if (db.hget (bucket_map_key a) b.name).isSome then 0 else 1) ∧
    ((save_bucket a db b).1.hget (bucket_map_key a) b.name = some b.id_) ∧
    (∀ f, f ≠ b.name →
      (save_bucket a db b).1.hget (bucket_map_key a) f = db.hget (bucket_map_key a) f) ∧
    ((save_bucket demoAdapter RedisDB.empty ⟨"a", "1"⟩).2 = 1) ∧
    ((save_bucket demoAdapter
        (save_bucket demoAdapter RedisDB.empty ⟨"a", "1"⟩).1 ⟨"a", "2"⟩).2 = 0) ∧
    (get_bucket_id_or_none_from_bucket_name demoAdapter
        (save_bucket demoAdapter
          (save_bucket demoAdapter RedisDB.empty ⟨"a", "1"⟩).1 ⟨"a", "2"⟩).1
        none (some "a") = .ok (some "2")) := by
  refine ⟨rfl, ?_, ?_, rfl, rfl, rfl⟩
  · simp [save_bucket, RedisDB.hset, RedisDB.hget]
  · intro f hf
    simp [save_bucket, RedisDB.hset, RedisDB.hget, hf]

/-- Witness for C9 at a concrete distinct field name. -/
theorem c9_save_bucket_witness :
    ("b" : String) ≠ "a" ∧
    (save_bucket demoAdapter RedisDB.empty ⟨"a", "1"⟩).1.hget
      (bucket_map_key demoAdapter) "b" = none :=
  ⟨by decide, by
    have h := (c9_save_bucket demoAdapter RedisDB.empty ⟨"a", "1"⟩).2.2.1 "b" (by decide)
    simpa [RedisDB.hget, RedisDB.empty] using h⟩
